import Mathlib

/-!
Verification of the conversational tool-invocation orchestrator of the
personal-assistant-API repository.

Go strings are modelled as lists of naturals (`GoStr`): the code points of the
string, which coincide with the UTF-8 bytes for the ASCII literals appearing in
the source.  Fallible Go functions return `Except GoStr α` with the error
message as payload.  External effects (JSON decoding, HTTP weather calls,
calendar loading, the wall clock and the model backend) are passed in as
explicit oracles, so every definition is executable.

The repository contains two generations of the reply orchestrator:

* `legacy.Reply` — `internal/chat/assistant/assistant.go`, which inlines the
  tool dispatch in a `switch` on the function name and returns a terminal
  error on an unknown tool name;
* `tools.Dispatch` together with `Reply` — the registry-based orchestrator
  (`tools/tools.go` and the options-pattern `assistant.go`, the layout the
  repository's architecture document describes), where `Dispatch` folds an
  unknown tool name into a tool-result message and the loop continues.

Both are embedded faithfully below.
-/

/-- A Go string, as the list of its code points (bytes for ASCII data). -/
abbrev GoStr := List Nat

/-- Embed a Lean string literal as a `GoStr`. -/
def str (s : String) : GoStr := s.data.map Char.toNat

/-- One persisted conversation message: `model.Message` (role + content). -/
structure ConvMessage where
  role : GoStr
  content : GoStr
deriving DecidableEq, Repr

/-- A conversation: `model.Conversation` restricted to the fields the
assistant reads (the message list; the id is only logged). -/
structure Conversation where
  messages : List ConvMessage
deriving DecidableEq, Repr

/-- One tool call of a backend response:
`openai.ChatCompletionMessageToolCallUnion`, with the `Function` and `Custom`
variants flattened into fields selected by `typ` (`call.Type`). -/
structure ToolCall where
  id : GoStr
  typ : GoStr
  funcName : GoStr
  funcArgs : GoStr
  customName : GoStr
  customInput : GoStr
deriving DecidableEq, Repr

/-- One choice message of a backend response (`resp.Choices[i].Message`). -/
structure ChatMessage where
  content : GoStr
  toolCalls : List ToolCall
deriving DecidableEq, Repr

/-- A backend response (`resp.Choices`). -/
structure ChatResponse where
  choices : List ChatMessage
deriving DecidableEq, Repr

/-- One entry of the message history sent to the backend.
`assistantParam m` is `msgs = append(msgs, message.ToParam())` — the raw
assistant turn still carrying its tool calls; `tool content id` is
`openai.ToolMessage(content, id)`. -/
inductive Msg
  | system (content : GoStr)
  | user (content : GoStr)
  | assistant (content : GoStr)
  | assistantParam (m : ChatMessage)
  | tool (content : GoStr) (callId : GoStr)
deriving DecidableEq, Repr

/-- Count the tool-result messages in a history fragment. -/
def countTool : List Msg → Nat
  | [] => 0
  | Msg.tool _ _ :: rest => countTool rest + 1
  | _ :: rest => countTool rest

/- ### Title generation (`Assistant.Title`, identical in both generations) -/

/-- The cutset of `strings.Trim(title, " \t\r\n-\"'")`. -/
def titleCutset : GoStr := str " \t\r\n-\"'"

/-- The ASCII part of Go's `unicode.IsSpace`, used by `strings.TrimSpace`. -/
def isGoSpace (b : Nat) : Bool :=
  b = 32 || b = 9 || b = 10 || b = 11 || b = 12 || b = 13 || b = 133 || b = 160

/-- Drop the leading code points belonging to the cutset. -/
def trimLeft (cutset : GoStr) (s : GoStr) : GoStr :=
  s.dropWhile (fun b => b ∈ cutset)

/-- Model of `strings.Trim(s, cutset)` for an ASCII cutset: drop leading and
trailing cutset code points. -/
def trim (cutset : GoStr) (s : GoStr) : GoStr :=
  ((trimLeft cutset s).reverse.dropWhile (fun b => b ∈ cutset)).reverse

/-- Model of `strings.TrimSpace s == ""`: every code point is whitespace. -/
def isBlank (s : GoStr) : Bool :=
  s.all isGoSpace

/-- The post-processing applied to the model's raw title: replace every
newline with a space, trim the surrounding cutset, and hard-truncate to 80. -/
def processTitle (content : GoStr) : GoStr :=
  let t := content.map (fun b => if b = 10 then 32 else b)
  let t := trim titleCutset t
  if t.length > 80 then t.take 80 else t

/-- `Assistant.Title`.  `backend` is the single completion call's outcome;
the returned `Nat` counts the backend calls actually issued. -/
def Title (conv : Conversation) (backend : Except GoStr ChatResponse) :
    Except GoStr GoStr × Nat :=
  if conv.messages.length = 0 then
    (Except.ok (str "An empty conversation"), 0)
  else
    match backend with
    | Except.error e => (Except.error e, 1)
    | Except.ok resp =>
      match resp.choices with
      | [] => (Except.error (str "empty response from OpenAI for title generation"), 1)
      | m :: _ =>
        if isBlank m.content then
          (Except.error (str "empty response from OpenAI for title generation"), 1)
        else
          (Except.ok (processTitle m.content), 1)

/- ### External effect oracles shared by both orchestrator generations -/

/-- The decoded `get_weather` arguments (`location`, `forecast_days`). -/
structure WeatherArgs where
  location : GoStr
  forecastDays : Int
deriving DecidableEq, Repr

/-- The decoded `get_holidays` arguments.  Go's zero `time.Time` (the
`IsZero()` test) is modelled by `none`; dates are ordered instants. -/
structure HolidayArgs where
  beforeDate : Option Int
  afterDate : Option Int
  maxCount : Int
deriving DecidableEq, Repr

/-- One calendar event: the outcome of `GetAllDayStartAt()` and the summary
property used to format the holiday line. -/
structure CalEvent where
  allDayStart : Except GoStr Int
  summary : GoStr

/-- Oracles for the external effects the tool implementations perform:
JSON decoding, the weather HTTP client, response formatting, the clock, the
ICS calendar, date rendering, and the handlers of the two tools whose source
files (`tools/date.go`, `tools/timezone.go`) are not under `src/`. -/
structure Effects where
  decodeWeather : GoStr → Except GoStr WeatherArgs
  getForecast : GoStr → Int → Except GoStr GoStr
  getCurrentWeather : GoStr → Except GoStr GoStr
  formatForecast : GoStr → GoStr
  formatCurrentWeather : GoStr → GoStr
  now : GoStr
  loadCalendar : Except GoStr (List CalEvent)
  decodeHolidayArgs : GoStr → Except GoStr HolidayArgs
  dateOnly : Int → GoStr
  dateHandle : GoStr → Except GoStr GoStr
  timezoneHandle : GoStr → Except GoStr GoStr

/-- The holiday filter loop shared by both generations: skip events without
an all-day start, stop once `max_count` lines were collected, skip events
after `before_date` or before `after_date`, and render the rest as
`YYYY-MM-DD: Name` lines. -/
def holidayLines (fx : Effects) (p : HolidayArgs) :
    List CalEvent → List GoStr → List GoStr
  | [], acc => acc
  | e :: rest, acc =>
    match e.allDayStart with
    | Except.error _ => holidayLines fx p rest acc
    | Except.ok date =>
      if p.maxCount > 0 ∧ (acc.length : Int) ≥ p.maxCount then
        acc
      else if (match p.beforeDate with | some b => decide (date > b) | none => false) then
        holidayLines fx p rest acc
      else if (match p.afterDate with | some a => decide (date < a) | none => false) then
        holidayLines fx p rest acc
      else
        holidayLines fx p rest (acc ++ [fx.dateOnly date ++ str ": " ++ e.summary])

/-- Model of `strings.Join(lines, "\n")`. -/
def joinLines (lines : List GoStr) : GoStr :=
  List.intercalate [10] lines

/- ### Legacy orchestrator: `internal/chat/assistant/assistant.go` -/

namespace legacy

/-- The inline `switch call.Function.Name` body of the legacy `Reply` loop:
each known tool produces exactly one tool-result message (folding decode and
execution failures into the message text); an unknown name yields `none`,
which the caller turns into the terminal "unknown tool call" error. -/
def handleCall (fx : Effects) (call : ToolCall) : Option Msg :=
  if call.funcName = str "get_weather" then
    match fx.decodeWeather call.funcArgs with
    | Except.error e =>
      some (Msg.tool (str "failed to parse weather request: " ++ e) call.id)
    | Except.ok wa =>
      if wa.forecastDays > 0 then
        match fx.getForecast wa.location wa.forecastDays with
        | Except.error e =>
          some (Msg.tool (str "Failed to fetch weather forecast: " ++ e) call.id)
        | Except.ok f =>
          some (Msg.tool (fx.formatForecast f) call.id)
      else
        match fx.getCurrentWeather wa.location with
        | Except.error e =>
          some (Msg.tool (str "Failed to fetch weather: " ++ e) call.id)
        | Except.ok w =>
          some (Msg.tool (fx.formatCurrentWeather w) call.id)
  else if call.funcName = str "get_today_date" then
    some (Msg.tool fx.now call.id)
  else if call.funcName = str "get_holidays" then
    match fx.loadCalendar with
    | Except.error _ =>
      some (Msg.tool (str "failed to load holiday events") call.id)
    | Except.ok events =>
      match fx.decodeHolidayArgs call.funcArgs with
      | Except.error e =>
        some (Msg.tool (str "failed to parse tool call arguments: " ++ e) call.id)
      | Except.ok payload =>
        some (Msg.tool (joinLines (holidayLines fx payload events [])) call.id)
  else
    none

/-- The `for _, call := range message.ToolCalls` loop of the legacy `Reply`:
append each call's tool-result message in order; at the first unknown name,
stop and report the "unknown tool call" error with the history built so far. -/
def processCalls (fx : Effects) :
    List ToolCall → List Msg → List Msg × Option GoStr
  | [], msgs => (msgs, none)
  | c :: rest, msgs =>
    match handleCall fx c with
    | some m => processCalls fx rest (msgs ++ [m])
    | none => (msgs, some (str "unknown tool call: " ++ c.funcName))

end legacy

/-- The outcome of one orchestrator invocation, together with the number of
backend calls issued and the final local message history. -/
structure ReplyResult where
  out : Except GoStr GoStr
  backendCalls : Nat
  msgs : List Msg
deriving Repr

/-- The system prompt the reply loop seeds the history with. -/
def replySystemPrompt : GoStr :=
  str "You are a helpful, concise AI assistant. Provide accurate, safe, and clear responses."

/-- The `for _, m := range conv.Messages` seeding loop: user and assistant
turns are forwarded, any other role is skipped (the `switch` has no default). -/
def appendConvMsgs : List ConvMessage → List Msg → List Msg
  | [], msgs => msgs
  | m :: rest, msgs =>
    if m.role = str "user" then
      appendConvMsgs rest (msgs ++ [Msg.user m.content])
    else if m.role = str "assistant" then
      appendConvMsgs rest (msgs ++ [Msg.assistant m.content])
    else
      appendConvMsgs rest msgs

/-- The initial message history of a reply invocation: the system prompt
followed by the conversation's user/assistant turns. -/
def initMsgs (conv : Conversation) : List Msg :=
  appendConvMsgs conv.messages [Msg.system replySystemPrompt]

namespace legacy

/-- The legacy `for i := 0; i < 15; i++` loop, structurally recursing on the
remaining iterations.  `k` counts backend calls already issued; `backend` maps
the current history (the request payload) to the completion outcome. -/
def replyLoop (fx : Effects) (backend : List Msg → Except GoStr ChatResponse) :
    Nat → Nat → List Msg → ReplyResult
  | 0, k, msgs =>
    ⟨Except.error (str "too many tool calls, unable to generate reply"), k, msgs⟩
  | fuel + 1, k, msgs =>
    match backend msgs with
    | Except.error e => ⟨Except.error e, k + 1, msgs⟩
    | Except.ok resp =>
      match resp.choices with
      | [] => ⟨Except.error (str "no choices returned by OpenAI"), k + 1, msgs⟩
      | message :: _ =>
        match message.toolCalls with
        | [] => ⟨Except.ok message.content, k + 1, msgs⟩
        | _ :: _ =>
          match legacy.processCalls fx message.toolCalls
              (msgs ++ [Msg.assistantParam message]) with
          | (msgs2, some e) => ⟨Except.error e, k + 1, msgs2⟩
          | (msgs2, none) => replyLoop fx backend fuel (k + 1) msgs2

/-- The legacy `Assistant.Reply`: guard against an empty conversation, then
run at most 15 model/tool round-trips. -/
def Reply (fx : Effects) (backend : List Msg → Except GoStr ChatResponse)
    (conv : Conversation) : ReplyResult :=
  if conv.messages.length = 0 then
    ⟨Except.error (str "conversation has no messages"), 0, []⟩
  else
    replyLoop fx backend 15 0 (initMsgs conv)

end legacy

/- ### Registry-based orchestrator: `tools/tools.go` and the options-pattern
`assistant.go` -/

namespace tools

/-- A registered capability: the `tools.Tool` interface (`Name()` and
`Handle(ctx, args)`; the schema advertisement carries no behaviour). -/
structure Tool where
  name : GoStr
  handle : GoStr → Except GoStr GoStr

/-- The `for _, tool := range tools` linear scan inside `Dispatch`: the first
tool whose name matches runs, its failure is folded into a "Tool failed"
message; when no name matches, the result is an "Unknown tool" message. -/
def dispatchLookup (ts : List Tool) (functionName arguments id : GoStr) : Msg :=
  match ts with
  | [] => Msg.tool (str "Unknown tool: " ++ functionName) id
  | t :: rest =>
    if t.name = functionName then
      match t.handle arguments with
      | Except.error e => Msg.tool (str "Tool failed: " ++ e) id
      | Except.ok result => Msg.tool result id
    else
      dispatchLookup rest functionName arguments id

/-- `tools.Dispatch`: extract name and arguments according to the call type,
then scan the registered tools; every branch returns a tool-result message
correlated by `call.ID`. -/
def Dispatch (ts : List Tool) (call : ToolCall) : Msg :=
  if call.typ = str "function" then
    dispatchLookup ts call.funcName call.funcArgs call.id
  else if call.typ = str "custom" then
    dispatchLookup ts call.customName call.customInput call.id
  else
    Msg.tool (str "Unknown tool call type: " ++ call.typ) call.id

/-- `WeatherTool.Handle` (`tools/weather.go`): decode the arguments, then
fetch and format either the forecast or the current weather. -/
def weatherHandle (fx : Effects) (args : GoStr) : Except GoStr GoStr :=
  match fx.decodeWeather args with
  | Except.error e => Except.error (str "invalid weather parameters: " ++ e)
  | Except.ok p =>
    if p.forecastDays > 0 then
      match fx.getForecast p.location p.forecastDays with
      | Except.error e => Except.error (str "failed to fetch weather forecast: " ++ e)
      | Except.ok f => Except.ok (fx.formatForecast f)
    else
      match fx.getCurrentWeather p.location with
      | Except.error e => Except.error (str "failed to fetch weather: " ++ e)
      | Except.ok w => Except.ok (fx.formatCurrentWeather w)

/-- `HolidaysTool.Handle` (`tools/holidays.go`): decode the arguments, load
the calendar, filter, and join — with a fixed message when nothing matched. -/
def holidaysHandle (fx : Effects) (args : GoStr) : Except GoStr GoStr :=
  match fx.decodeHolidayArgs args with
  | Except.error e => Except.error (str "invalid holiday parameters: " ++ e)
  | Except.ok p =>
    match fx.loadCalendar with
    | Except.error e => Except.error (str "failed to load holiday calendar: " ++ e)
    | Except.ok events =>
      let hs := holidayLines fx p events []
      if hs.length = 0 then
        Except.ok (str "No holidays found matching the criteria.")
      else
        Except.ok (joinLines hs)

end tools

/-- The tool registry built by the options-pattern `New()`:
weather, date, holidays and timezone tools, in registration order.  The
handlers of `tools/date.go` and `tools/timezone.go` are not under `src/` and
are taken from the oracle (the timezone tool's name comes from its test,
`tools/timezone_test.go`; the date tool keeps the legacy name). -/
def registry (fx : Effects) : List tools.Tool :=
  [ ⟨str "get_weather", tools.weatherHandle fx⟩,
    ⟨str "get_today_date", fx.dateHandle⟩,
    ⟨str "get_holidays", tools.holidaysHandle fx⟩,
    ⟨str "convert_timezone", fx.timezoneHandle⟩ ]

/-- The `for _, call := range message.ToolCalls` loop of the registry-based
`Reply`: append one dispatched tool-result message per call, in order. -/
def dispatchAll (ts : List tools.Tool) : List ToolCall → List Msg → List Msg
  | [], msgs => msgs
  | c :: rest, msgs => dispatchAll ts rest (msgs ++ [tools.Dispatch ts c])

/-- The registry-based `for i := 0; i < 15; i++` loop, structurally recursing
on the remaining iterations; `k` counts backend calls already issued. -/
def replyLoop (ts : List tools.Tool)
    (backend : List Msg → Except GoStr ChatResponse) :
    Nat → Nat → List Msg → ReplyResult
  | 0, k, msgs =>
    ⟨Except.error (str "too many tool calls, unable to generate reply"), k, msgs⟩
  | fuel + 1, k, msgs =>
    match backend msgs with
    | Except.error e => ⟨Except.error e, k + 1, msgs⟩
    | Except.ok resp =>
      match resp.choices with
      | [] => ⟨Except.error (str "no choices returned by OpenAI"), k + 1, msgs⟩
      | message :: _ =>
        match message.toolCalls with
        | [] => ⟨Except.ok message.content, k + 1, msgs⟩
        | _ :: _ =>
          replyLoop ts backend fuel (k + 1)
            (dispatchAll ts message.toolCalls (msgs ++ [Msg.assistantParam message]))

/-- The registry-based `Assistant.Reply`: guard against an empty
conversation, then run at most 15 model/tool round-trips over the registry. -/
def Reply (ts : List tools.Tool)
    (backend : List Msg → Except GoStr ChatResponse)
    (conv : Conversation) : ReplyResult :=
  if conv.messages.length = 0 then
    ⟨Except.error (str "conversation has no messages"), 0, []⟩
  else
    replyLoop ts backend 15 0 (initMsgs conv)

/- ### Dual-generation coordinator -/

/-- The default title substituted when title generation fails
(`server_test.go` expects `"Untitled conversation"`). -/
def defaultTitle : GoStr := str "Untitled conversation"

/-- Modelled from the spec: `internal/chat/server.go` (the `StartConversation`
dual-generation coordinator) is not under `src/`; only its tests are.  Per the
spec, title and reply generation run concurrently over the same snapshot and
join; a failed title is replaced by the fixed default title, while a failed
reply fails the whole conversation-creation operation.  The two tasks share no
mutable state, so the join is modelled by combining the two task outcomes. -/
def StartConversation (titleOutcome replyOutcome : Except GoStr GoStr) :
    Except GoStr (GoStr × GoStr) :=
  match replyOutcome with
  | Except.error e => Except.error e
  | Except.ok reply =>
    match titleOutcome with
    | Except.error _ => Except.ok (defaultTitle, reply)
    | Except.ok t => Except.ok (t, reply)

/- ### Helper lemmas -/

/-- The head surviving `dropWhile` fails the predicate. -/
theorem head?_dropWhile_false (p : Nat → Bool) :
    ∀ l : List Nat, ∀ x ∈ (l.dropWhile p).head?, p x = false := by
  intro l
  induction l with
  | nil => simp [List.dropWhile]
  | cons a rest ih =>
    by_cases h : p a
    · simpa [List.dropWhile, h] using ih
    · simp [List.dropWhile, h]

/-- A nonempty `dropWhile` result keeps the last element of the list. -/
theorem getLast?_dropWhile (p : Nat → Bool) (l : List Nat)
    (h : l.dropWhile p ≠ []) : (l.dropWhile p).getLast? = l.getLast? := by
  obtain ⟨pre, hpre⟩ := List.dropWhile_suffix (l := l) (p := p)
  conv_rhs => rw [← hpre]
  exact (List.getLast?_append_of_ne_nil pre h).symm

/-- Membership in the trimmed string implies membership in the original. -/
theorem trim_subset (cs s : GoStr) : ∀ x ∈ trim cs s, x ∈ s := by
  intro x hx
  unfold trim trimLeft at hx
  rw [List.mem_reverse] at hx
  have hx2 := (List.dropWhile_suffix _).subset hx
  rw [List.mem_reverse] at hx2
  exact (List.dropWhile_suffix _).subset hx2

/-- The trimmed string never starts with a cutset code point. -/
theorem trim_head (cs s : GoStr) : ∀ x ∈ (trim cs s).head?, x ∉ cs := by
  intro x hx
  unfold trim at hx
  rw [List.head?_reverse] at hx
  by_cases hne : (trimLeft cs s).reverse.dropWhile (fun b => b ∈ cs) = []
  · rw [hne] at hx
    simp at hx
  · rw [getLast?_dropWhile _ _ hne, List.getLast?_reverse] at hx
    have := head?_dropWhile_false (fun b => decide (b ∈ cs)) s x (by simpa [trimLeft] using hx)
    simpa using this

/-- The trimmed string never ends with a cutset code point. -/
theorem trim_last (cs s : GoStr) : ∀ x ∈ (trim cs s).getLast?, x ∉ cs := by
  intro x hx
  unfold trim at hx
  rw [List.getLast?_reverse] at hx
  have := head?_dropWhile_false (fun b => decide (b ∈ cs)) (trimLeft cs s).reverse x hx
  simpa using this

/-- Taking a positive prefix keeps the head. -/
theorem head?_take_pos (l : List Nat) (n : Nat) (hn : 0 < n) :
    (l.take n).head? = l.head? := by
  cases l with
  | nil => simp
  | cons a rest =>
    obtain ⟨m, rfl⟩ := Nat.exists_eq_succ_of_ne_zero (Nat.pos_iff_ne_zero.mp hn)
    simp [List.take]

/-- Shape facts about the title post-processing: at most 80 code points, no
newline, a non-cutset head, and — whenever no truncation happened (the result
is shorter than 80) — a non-cutset last code point. -/
theorem processTitle_props (content : GoStr) :
    (processTitle content).length ≤ 80
    ∧ 10 ∉ processTitle content
    ∧ (∀ x ∈ (processTitle content).head?, x ∉ titleCutset)
    ∧ ((processTitle content).length < 80 →
        ∀ x ∈ (processTitle content).getLast?, x ∉ titleCutset) := by
  have hnomem : ∀ x ∈ content.map (fun b => if b = 10 then 32 else b), x ≠ 10 := by
    intro x hx
    rw [List.mem_map] at hx
    obtain ⟨b, _, hb⟩ := hx
    by_cases hb10 : b = 10
    · rw [if_pos hb10] at hb
      omega
    · rw [if_neg hb10] at hb
      omega
  simp only [processTitle]
  set c1 := content.map (fun b => if b = 10 then 32 else b) with hc1
  set t2 := trim titleCutset c1 with ht2
  by_cases h80 : t2.length > 80
  · rw [if_pos h80]
    refine ⟨?_, ?_, ?_, ?_⟩
    · simp
    · intro hmem
      exact hnomem 10 (trim_subset _ _ _ (List.take_subset _ _ hmem)) rfl
    · rw [head?_take_pos t2 80 (by omega)]
      exact trim_head _ _
    · intro hlen
      rw [List.length_take] at hlen
      omega
  · rw [if_neg h80]
    refine ⟨by omega, ?_, trim_head _ _, fun _ => trim_last _ _⟩
    intro hmem
    exact hnomem 10 (trim_subset _ _ _ hmem) rfl

/-- A linear scan over tools none of which carries the requested name
reaches the "Unknown tool" fallback. -/
theorem dispatchLookup_not_found (ts : List tools.Tool) (name args id : GoStr)
    (h : ∀ t ∈ ts, t.name ≠ name) :
    tools.dispatchLookup ts name args id
      = Msg.tool (str "Unknown tool: " ++ name) id := by
  induction ts with
  | nil => rfl
  | cons t rest ih =>
    rw [tools.dispatchLookup, if_neg (h t (by simp))]
    exact ih fun u hu => h u (by simp [hu])

/-- Every branch of `Dispatch` yields a tool-result message correlated by the
call's id. -/
theorem Dispatch_isTool (ts : List tools.Tool) (call : ToolCall) :
    ∃ content, tools.Dispatch ts call = Msg.tool content call.id := by
  have lookup : ∀ us (name args : GoStr), ∃ content,
      tools.dispatchLookup us name args call.id = Msg.tool content call.id := by
    intro us
    induction us with
    | nil => intro name args; exact ⟨_, rfl⟩
    | cons t rest ih =>
      intro name args
      rw [tools.dispatchLookup]
      by_cases h : t.name = name
      · rw [if_pos h]
        cases t.handle args with
        | error e => exact ⟨_, rfl⟩
        | ok r => exact ⟨_, rfl⟩
      · rw [if_neg h]
        exact ih name args
  unfold tools.Dispatch
  by_cases h1 : call.typ = str "function"
  · rw [if_pos h1]; exact lookup ts call.funcName call.funcArgs
  · rw [if_neg h1]
    by_cases h2 : call.typ = str "custom"
    · rw [if_pos h2]; exact lookup ts call.customName call.customInput
    · rw [if_neg h2]; exact ⟨_, rfl⟩

/-- The per-round dispatch loop is the in-order map of `Dispatch` over the
requested calls. -/
theorem dispatchAll_eq_map (ts : List tools.Tool) :
    ∀ calls msgs, dispatchAll ts calls msgs = msgs ++ calls.map (tools.Dispatch ts) := by
  intro calls
  induction calls with
  | nil => intro msgs; simp [dispatchAll]
  | cons c rest ih => intro msgs; simp [dispatchAll, ih]

/-- Dispatching a round's calls produces exactly one tool-result message per
call. -/
theorem countTool_dispatch (ts : List tools.Tool) :
    ∀ calls : List ToolCall, countTool (calls.map (tools.Dispatch ts)) = calls.length := by
  intro calls
  induction calls with
  | nil => rfl
  | cons c rest ih =>
    obtain ⟨content, hc⟩ := Dispatch_isTool ts c
    simp only [List.map_cons, hc, countTool, ih, List.length_cons]

/-- Each dispatched result is correlated, in order, to its request. -/
theorem dispatch_forall₂ (ts : List tools.Tool) :
    ∀ calls : List ToolCall,
      List.Forall₂ (fun c m => ∃ content, m = Msg.tool content c.id)
        calls (calls.map (tools.Dispatch ts)) := by
  intro calls
  induction calls with
  | nil => exact List.Forall₂.nil
  | cons c rest ih =>
    obtain ⟨content, hc⟩ := Dispatch_isTool ts c
    exact List.Forall₂.cons ⟨content, hc⟩ ih

/-- One tool round-trip of the registry-based loop: the assistant turn and the
in-order dispatched results are appended, then the loop re-enters with one
more backend call issued. -/
theorem replyLoop_step (ts : List tools.Tool)
    (backend : List Msg → Except GoStr ChatResponse)
    (fuel k : Nat) (msgs : List Msg) (resp : ChatResponse)
    (message : ChatMessage) (rest : List ChatMessage)
    (hb : backend msgs = Except.ok resp) (hc : resp.choices = message :: rest)
    (ht : message.toolCalls ≠ []) :
    replyLoop ts backend (fuel + 1) k msgs
      = replyLoop ts backend fuel (k + 1)
          (msgs ++ Msg.assistantParam message :: message.toolCalls.map (tools.Dispatch ts)) := by
  cases hcalls : message.toolCalls with
  | nil => exact absurd hcalls ht
  | cons c cs =>
    simp only [replyLoop]
    rw [hb]
    simp only [hc, hcalls, dispatchAll_eq_map]
    simp


/-- A backend communication failure ends the loop with that error. -/
theorem replyLoop_err (ts : List tools.Tool)
    (backend : List Msg → Except GoStr ChatResponse)
    (fuel k : Nat) (msgs : List Msg) (e : GoStr)
    (hb : backend msgs = Except.error e) :
    replyLoop ts backend (fuel + 1) k msgs = ⟨Except.error e, k + 1, msgs⟩ := by
  simp only [replyLoop]
  rw [hb]

/-- A response without choices ends the loop with the dedicated error. -/
theorem replyLoop_nochoices (ts : List tools.Tool)
    (backend : List Msg → Except GoStr ChatResponse)
    (fuel k : Nat) (msgs : List Msg) (resp : ChatResponse)
    (hb : backend msgs = Except.ok resp) (hc : resp.choices = []) :
    replyLoop ts backend (fuel + 1) k msgs
      = ⟨Except.error (str "no choices returned by OpenAI"), k + 1, msgs⟩ := by
  simp only [replyLoop]
  rw [hb]
  simp only [hc]

/-- A first choice without tool calls ends the loop with its content. -/
theorem replyLoop_text (ts : List tools.Tool)
    (backend : List Msg → Except GoStr ChatResponse)
    (fuel k : Nat) (msgs : List Msg) (resp : ChatResponse)
    (message : ChatMessage) (rest : List ChatMessage)
    (hb : backend msgs = Except.ok resp) (hc : resp.choices = message :: rest)
    (ht : message.toolCalls = []) :
    replyLoop ts backend (fuel + 1) k msgs = ⟨Except.ok message.content, k + 1, msgs⟩ := by
  simp only [replyLoop]
  rw [hb]
  simp only [hc, ht]

/-- The loop issues at most `fuel` further backend calls. -/
theorem replyLoop_calls_le (ts : List tools.Tool)
    (backend : List Msg → Except GoStr ChatResponse) :
    ∀ fuel k msgs, (replyLoop ts backend fuel k msgs).backendCalls ≤ k + fuel := by
  intro fuel
  induction fuel with
  | zero => intro k msgs; simp [replyLoop]
  | succ n ih =>
    intro k msgs
    cases hb : backend msgs with
    | error e =>
      rw [replyLoop_err ts backend n k msgs e hb]
      show k + 1 ≤ k + (n + 1)
      omega
    | ok resp =>
      cases hc : resp.choices with
      | nil =>
        rw [replyLoop_nochoices ts backend n k msgs resp hb hc]
        show k + 1 ≤ k + (n + 1)
        omega
      | cons message rest =>
        cases ht : message.toolCalls with
        | nil =>
          rw [replyLoop_text ts backend n k msgs resp message rest hb hc ht]
          show k + 1 ≤ k + (n + 1)
          omega
        | cons c cs =>
          rw [replyLoop_step ts backend n k msgs resp message rest hb hc (by rw [ht]; simp)]
          exact le_trans (ih (k + 1) _) (by omega)

/-- When the backend answers every history with a tool-call round, the loop
exhausts its fuel, consuming exactly one backend call per unit of fuel, and
ends in the round-trip-limit error. -/
theorem replyLoop_forced (ts : List tools.Tool)
    (backend : List Msg → Except GoStr ChatResponse)
    (hB : ∀ msgs, ∃ message rest, backend msgs = Except.ok ⟨message :: rest⟩
        ∧ message.toolCalls ≠ []) :
    ∀ fuel k msgs,
      (replyLoop ts backend fuel k msgs).out
          = Except.error (str "too many tool calls, unable to generate reply")
      ∧ (replyLoop ts backend fuel k msgs).backendCalls = k + fuel := by
  intro fuel
  induction fuel with
  | zero => intro k msgs; exact ⟨rfl, rfl⟩
  | succ n ih =>
    intro k msgs
    obtain ⟨message, rest, hb, ht⟩ := hB msgs
    rw [replyLoop_step ts backend n k msgs ⟨message :: rest⟩ message rest hb rfl ht]
    refine ⟨(ih (k + 1) _).1, ?_⟩
    rw [(ih (k + 1) _).2]
    omega

/-- A name outside the legacy `switch` is not handled. -/
theorem legacy_handleCall_none (fx : Effects) (call : ToolCall)
    (h1 : call.funcName ≠ str "get_weather")
    (h2 : call.funcName ≠ str "get_today_date")
    (h3 : call.funcName ≠ str "get_holidays") :
    legacy.handleCall fx call = none := by
  rw [legacy.handleCall, if_neg h1, if_neg h2, if_neg h3]

/-- A weather call whose arguments fail to decode is handled as a tool-result
message carrying the decode error. -/
theorem legacy_handleCall_weather_decode (fx : Effects) (call : ToolCall)
    (e : GoStr) (hname : call.funcName = str "get_weather")
    (hdec : fx.decodeWeather call.funcArgs = Except.error e) :
    legacy.handleCall fx call
      = some (Msg.tool (str "failed to parse weather request: " ++ e) call.id) := by
  rw [legacy.handleCall, if_pos hname, hdec]

/-- The legacy per-round loop appends a handled call's message and moves to
the next requested invocation. -/
theorem legacy_processCalls_cons (fx : Effects) (call : ToolCall) (m : Msg)
    (rest : List ToolCall) (msgs : List Msg)
    (hm : legacy.handleCall fx call = some m) :
    legacy.processCalls fx (call :: rest) msgs
      = legacy.processCalls fx rest (msgs ++ [m]) := by
  simp only [legacy.processCalls]
  rw [hm]

/-- The legacy per-round loop reports the first unknown name, after handling
every call before it. -/
theorem legacy_processCalls_unknown (fx : Effects) :
    ∀ (pre : List ToolCall) (bad : ToolCall) (post : List ToolCall) (msgs : List Msg),
      (∀ c ∈ pre, (legacy.handleCall fx c).isSome) →
      legacy.handleCall fx bad = none →
      (legacy.processCalls fx (pre ++ bad :: post) msgs).2
        = some (str "unknown tool call: " ++ bad.funcName) := by
  intro pre
  induction pre with
  | nil =>
    intro bad post msgs _ hbad
    simp only [List.nil_append, legacy.processCalls]
    rw [hbad]
  | cons c cs ih =>
    intro bad post msgs hpre hbad
    obtain ⟨m, hm⟩ := Option.isSome_iff_exists.mp (hpre c (by simp))
    rw [List.cons_append, legacy_processCalls_cons fx c m _ msgs hm]
    exact ih bad post _ (fun u hu => hpre u (by simp [hu])) hbad

/-- In the legacy loop, the first unknown tool name of a round is terminal:
the invocation ends with the "unknown tool call" error right after the current
backend call, with no further backend calls. -/
theorem legacy_replyLoop_unknown (fx : Effects)
    (backend : List Msg → Except GoStr ChatResponse)
    (fuel k : Nat) (msgs : List Msg) (resp : ChatResponse)
    (message : ChatMessage) (rest : List ChatMessage)
    (pre : List ToolCall) (bad : ToolCall) (post : List ToolCall)
    (hb : backend msgs = Except.ok resp) (hc : resp.choices = message :: rest)
    (hcalls : message.toolCalls = pre ++ bad :: post)
    (hpre : ∀ c ∈ pre, (legacy.handleCall fx c).isSome)
    (hbad : legacy.handleCall fx bad = none) :
    (legacy.replyLoop fx backend (fuel + 1) k msgs).out
        = Except.error (str "unknown tool call: " ++ bad.funcName)
    ∧ (legacy.replyLoop fx backend (fuel + 1) k msgs).backendCalls = k + 1 := by
  have h2 : (legacy.processCalls fx message.toolCalls
      (msgs ++ [Msg.assistantParam message])).2
      = some (str "unknown tool call: " ++ bad.funcName) := by
    rw [hcalls]
    exact legacy_processCalls_unknown fx pre bad post _ hpre hbad
  cases hP : message.toolCalls with
  | nil =>
    rw [hP] at hcalls
    exact absurd hcalls.symm (List.append_ne_nil_of_right_ne_nil pre (by simp))
  | cons c0 cs0 =>
    rw [hP] at h2
    have heta : legacy.processCalls fx (c0 :: cs0) (msgs ++ [Msg.assistantParam message])
        = ((legacy.processCalls fx (c0 :: cs0) (msgs ++ [Msg.assistantParam message])).1,
           some (str "unknown tool call: " ++ bad.funcName)) := by
      rw [← h2]
    simp only [legacy.replyLoop]
    rw [hb]
    simp only [hc, hP]
    rw [heta]
    exact ⟨rfl, rfl⟩

/-- A nonempty conversation enters the round-trip loop with the seeded
history and zero backend calls. -/
theorem Reply_nonempty (ts : List tools.Tool)
    (backend : List Msg → Except GoStr ChatResponse) (conv : Conversation)
    (h : conv.messages ≠ []) :
    Reply ts backend conv = replyLoop ts backend 15 0 (initMsgs conv) := by
  rw [Reply, if_neg (fun h0 => h (List.length_eq_zero.mp h0))]

/- ### Concrete fixtures for the closed statements -/

/-- Trivial oracle instance for the closed statements: every external effect
fails or returns a fixed value. -/
def fx0 : Effects where
  decodeWeather := fun _ => Except.error (str "unexpected end of JSON input")
  getForecast := fun _ _ => Except.error (str "network unavailable")
  getCurrentWeather := fun _ => Except.error (str "network unavailable")
  formatForecast := fun s => s
  formatCurrentWeather := fun s => s
  now := str "2026-10-11T00:00:00Z"
  loadCalendar := Except.error (str "network unavailable")
  decodeHolidayArgs := fun _ => Except.ok ⟨none, none, 0⟩
  dateOnly := fun _ => str "2026-10-11"
  dateHandle := fun _ => Except.ok (str "2026-10-11T00:00:00Z")
  timezoneHandle := fun _ => Except.error (str "unknown timezone")

/-- A one-message conversation. -/
def conv1 : Conversation :=
  ⟨[⟨str "user", str "What is the weather like in Barcelona?"⟩]⟩

/-- A backend-requested call naming no registered capability. -/
def unknownCall : ToolCall :=
  ⟨str "call_1", str "function", str "does_not_exist", str "\x7b\x7d", [], []⟩

/-- A `get_today_date` call. -/
def dateCall : ToolCall :=
  ⟨str "call_2", str "function", str "get_today_date", str "\x7b\x7d", [], []⟩

/-- A `get_weather` call whose arguments will not decode. -/
def badWeatherCall : ToolCall :=
  ⟨str "call_3", str "function", str "get_weather", str "not json", [], []⟩

/-- A backend that requests the unknown capability once, then answers with
plain text. -/
def unknownThenText : List Msg → Except GoStr ChatResponse := fun msgs =>
  if countTool msgs = 0 then
    Except.ok ⟨[⟨[], [unknownCall]⟩]⟩
  else
    Except.ok ⟨[⟨str "done", []⟩]⟩

/-- A backend that always requests one date tool call. -/
def alwaysToolCall : List Msg → Except GoStr ChatResponse := fun _ =>
  Except.ok ⟨[⟨[], [dateCall]⟩]⟩

/-- A backend whose responses carry no choices. -/
def noChoices : List Msg → Except GoStr ChatResponse := fun _ =>
  Except.ok ⟨[]⟩

/-- A backend whose single choice has empty content and no tool calls. -/
def emptyChoice : List Msg → Except GoStr ChatResponse := fun _ =>
  Except.ok ⟨[⟨[], []⟩]⟩

/-- A backend failing with a transport error. -/
def failingBackend : List Msg → Except GoStr ChatResponse := fun _ =>
  Except.error (str "connection reset")

/-- A backend answering plain text immediately. -/
def textBackend : List Msg → Except GoStr ChatResponse := fun _ =>
  Except.ok ⟨[⟨str "Barcelona has beautiful weather today!", []⟩]⟩

/- ### Claim theorems -/

/-- C7: when title generation fails but reply generation succeeds, the
coordinator substitutes the fixed default title and conversation creation
succeeds with `(default title, reply text)`. -/
theorem title_failure_default_substitution (e reply : GoStr) :
    StartConversation (Except.error e) (Except.ok reply)
      = Except.ok (defaultTitle, reply) := rfl

/-- C8: when the backend returns a plain-text message (no tool calls) on the
first round-trip, the orchestrator returns exactly that text and issues
exactly one backend call. -/
theorem plain_text_verbatim_one_call (ts : List tools.Tool)
    (backend : List Msg → Except GoStr ChatResponse) (conv : Conversation)
    (message : ChatMessage) (rest : List ChatMessage)
    (hne : conv.messages ≠ [])
    (hb : backend (initMsgs conv) = Except.ok ⟨message :: rest⟩)
    (ht : message.toolCalls = []) :
    Reply ts backend conv = ⟨Except.ok message.content, 1, initMsgs conv⟩ := by
  rw [Reply_nonempty ts backend conv hne]
  exact replyLoop_text ts backend 14 0 (initMsgs conv) ⟨message :: rest⟩ message rest hb rfl ht

/-- Witness for C8 at a concrete conversation and backend. -/
theorem plain_text_verbatim_one_call_witness :
    Reply (registry fx0) textBackend conv1
      = ⟨Except.ok (str "Barcelona has beautiful weather today!"), 1, initMsgs conv1⟩ :=
  plain_text_verbatim_one_call (registry fx0) textBackend conv1
    ⟨str "Barcelona has beautiful weather today!", []⟩ [] (by decide) rfl rfl

/-- C9: for an empty conversation, `Title` returns the fixed placeholder and
issues no backend call. -/
theorem empty_title_placeholder (conv : Conversation)
    (backend : Except GoStr ChatResponse) (h : conv.messages = []) :
    Title conv backend = (Except.ok (str "An empty conversation"), 0) := by
  rw [Title.eq_def, if_pos (by simp [h])]

/-- Witness for C9 at the empty conversation (for any backend outcome, here a
failing one). -/
theorem empty_title_placeholder_witness :
    Conversation.messages ⟨[]⟩ = []
    ∧ Title ⟨[]⟩ (Except.error (str "backend down"))
        = (Except.ok (str "An empty conversation"), 0) :=
  ⟨rfl, empty_title_placeholder ⟨[]⟩ (Except.error (str "backend down")) rfl⟩

/-- C10: for an empty conversation, `Reply` fails with "conversation has no
messages" before any backend call or tool dispatch, in both orchestrator
generations. -/
theorem empty_reply_error (ts : List tools.Tool) (fx : Effects)
    (backend backend2 : List Msg → Except GoStr ChatResponse)
    (conv : Conversation) (h : conv.messages = []) :
    Reply ts backend conv
        = ⟨Except.error (str "conversation has no messages"), 0, []⟩
    ∧ legacy.Reply fx backend2 conv
        = ⟨Except.error (str "conversation has no messages"), 0, []⟩ := by
  constructor
  · rw [Reply, if_pos (by simp [h])]
  · rw [legacy.Reply, if_pos (by simp [h])]

/-- Witness for C10 at the empty conversation. -/
theorem empty_reply_error_witness :
    Conversation.messages ⟨[]⟩ = []
    ∧ Reply (registry fx0) alwaysToolCall ⟨[]⟩
        = ⟨Except.error (str "conversation has no messages"), 0, []⟩
    ∧ legacy.Reply fx0 alwaysToolCall ⟨[]⟩
        = ⟨Except.error (str "conversation has no messages"), 0, []⟩ :=
  ⟨rfl,
   (empty_reply_error (registry fx0) fx0 alwaysToolCall alwaysToolCall ⟨[]⟩ rfl).1,
   (empty_reply_error (registry fx0) fx0 alwaysToolCall alwaysToolCall ⟨[]⟩ rfl).2⟩

/-- C3: a reply invocation never issues more than 15 backend calls, and a
backend that requests tool calls on every round-trip drives the orchestrator
into the dedicated round-trip-limit error after exactly 15 backend calls. -/
theorem round_trip_bound :
    (∀ (ts : List tools.Tool) (backend : List Msg → Except GoStr ChatResponse)
        (conv : Conversation), (Reply ts backend conv).backendCalls ≤ 15)
    ∧ (∀ (ts : List tools.Tool) (backend : List Msg → Except GoStr ChatResponse)
        (conv : Conversation),
        conv.messages ≠ [] →
        (∀ msgs, ∃ message rest, backend msgs = Except.ok ⟨message :: rest⟩
            ∧ message.toolCalls ≠ []) →
        (Reply ts backend conv).out
            = Except.error (str "too many tool calls, unable to generate reply")
        ∧ (Reply ts backend conv).backendCalls = 15) := by
  constructor
  · intro ts backend conv
    rw [Reply]
    by_cases h : conv.messages.length = 0
    · rw [if_pos h]
      simp
    · rw [if_neg h]
      simpa using replyLoop_calls_le ts backend 15 0 (initMsgs conv)
  · intro ts backend conv hne hB
    rw [Reply_nonempty ts backend conv hne]
    exact replyLoop_forced ts backend hB 15 0 (initMsgs conv)

/-- Witness for C3 with a backend that always requests a tool call. -/
theorem round_trip_bound_witness :
    (Reply (registry fx0) alwaysToolCall conv1).backendCalls ≤ 15
    ∧ (Reply (registry fx0) alwaysToolCall conv1).out
        = Except.error (str "too many tool calls, unable to generate reply")
    ∧ (Reply (registry fx0) alwaysToolCall conv1).backendCalls = 15 :=
  ⟨round_trip_bound.1 (registry fx0) alwaysToolCall conv1,
   (round_trip_bound.2 (registry fx0) alwaysToolCall conv1 (by decide)
      (fun _ => ⟨⟨[], [dateCall]⟩, [], rfl, by simp⟩)).1,
   (round_trip_bound.2 (registry fx0) alwaysToolCall conv1 (by decide)
      (fun _ => ⟨⟨[], [dateCall]⟩, [], rfl, by simp⟩)).2⟩

/-- C4: a round-trip with N requested invocations appends the assistant turn
followed by exactly N tool-result messages, in request order, each correlated
to its request's id, and the loop re-enters (the next backend call sees them
all). -/
theorem tool_results_ordered (ts : List tools.Tool)
    (backend : List Msg → Except GoStr ChatResponse)
    (fuel k : Nat) (msgs : List Msg) (resp : ChatResponse)
    (message : ChatMessage) (rest : List ChatMessage)
    (hb : backend msgs = Except.ok resp) (hc : resp.choices = message :: rest)
    (ht : message.toolCalls ≠ []) :
    replyLoop ts backend (fuel + 1) k msgs
      = replyLoop ts backend fuel (k + 1)
          (msgs ++ Msg.assistantParam message :: message.toolCalls.map (tools.Dispatch ts))
    ∧ countTool (Msg.assistantParam message :: message.toolCalls.map (tools.Dispatch ts))
        = message.toolCalls.length
    ∧ List.Forall₂ (fun c m => ∃ content, m = Msg.tool content c.id)
        message.toolCalls (message.toolCalls.map (tools.Dispatch ts)) :=
  ⟨replyLoop_step ts backend fuel k msgs resp message rest hb hc ht,
   countTool_dispatch ts message.toolCalls,
   dispatch_forall₂ ts message.toolCalls⟩

/-- Witness for C4 at a concrete one-call round. -/
theorem tool_results_ordered_witness :
    replyLoop (registry fx0) alwaysToolCall 1 0 (initMsgs conv1)
      = replyLoop (registry fx0) alwaysToolCall 0 1
          (initMsgs conv1 ++ Msg.assistantParam ⟨[], [dateCall]⟩
            :: [dateCall].map (tools.Dispatch (registry fx0)))
    ∧ countTool (Msg.assistantParam ⟨[], [dateCall]⟩
          :: [dateCall].map (tools.Dispatch (registry fx0))) = [dateCall].length
    ∧ List.Forall₂ (fun c m => ∃ content, m = Msg.tool content c.id)
        [dateCall] ([dateCall].map (tools.Dispatch (registry fx0))) :=
  tool_results_ordered (registry fx0) alwaysToolCall 0 0 (initMsgs conv1)
    ⟨[⟨[], [dateCall]⟩]⟩ ⟨[], [dateCall]⟩ [] rfl rfl (by simp)

/-- C6 counterexample: a backend choice with empty text and no invocation
requests makes the orchestrator succeed with empty content — not fail. -/
theorem empty_choice_success_cex :
    (Reply (registry fx0) emptyChoice conv1).out = Except.ok []
    ∧ (Reply (registry fx0) emptyChoice conv1).backendCalls = 1 :=
  ⟨rfl, rfl⟩

/-- C6 amended: only a response carrying no choices at all (or a transport
failure) is terminal; a first choice with no tool calls — even with empty
content — ends the invocation as a success with exactly that content. -/
theorem no_choices_failure_amended (ts : List tools.Tool)
    (backend : List Msg → Except GoStr ChatResponse) (fuel k : Nat) (msgs : List Msg) :
    (backend msgs = Except.ok ⟨[]⟩ →
      replyLoop ts backend (fuel + 1) k msgs
        = ⟨Except.error (str "no choices returned by OpenAI"), k + 1, msgs⟩)
    ∧ (∀ e, backend msgs = Except.error e →
      replyLoop ts backend (fuel + 1) k msgs = ⟨Except.error e, k + 1, msgs⟩)
    ∧ (∀ content rest, backend msgs = Except.ok ⟨⟨content, []⟩ :: rest⟩ →
      replyLoop ts backend (fuel + 1) k msgs = ⟨Except.ok content, k + 1, msgs⟩) :=
  ⟨fun hb => replyLoop_nochoices ts backend fuel k msgs ⟨[]⟩ hb rfl,
   fun e hb => replyLoop_err ts backend fuel k msgs e hb,
   fun content rest hb =>
     replyLoop_text ts backend fuel k msgs ⟨⟨content, []⟩ :: rest⟩ ⟨content, []⟩ rest hb rfl rfl⟩

/-- Witness for the amended C6 at concrete backends. -/
theorem no_choices_failure_amended_witness :
    replyLoop (registry fx0) noChoices 15 0 (initMsgs conv1)
      = ⟨Except.error (str "no choices returned by OpenAI"), 1, initMsgs conv1⟩
    ∧ replyLoop (registry fx0) failingBackend 15 0 (initMsgs conv1)
      = ⟨Except.error (str "connection reset"), 1, initMsgs conv1⟩
    ∧ replyLoop (registry fx0) emptyChoice 15 0 (initMsgs conv1)
      = ⟨Except.ok [], 1, initMsgs conv1⟩ :=
  ⟨(no_choices_failure_amended (registry fx0) noChoices 14 0 (initMsgs conv1)).1 rfl,
   (no_choices_failure_amended (registry fx0) failingBackend 14 0 (initMsgs conv1)).2.1
     (str "connection reset") rfl,
   (no_choices_failure_amended (registry fx0) emptyChoice 14 0 (initMsgs conv1)).2.2
     [] [] rfl⟩

/-- C1 counterexample: in the registry-based orchestrator, a backend request
naming no registered capability is not terminal — it is folded into an
"Unknown tool" tool-result message, a further backend call is issued, and the
invocation succeeds. -/
theorem unknown_capability_not_terminal_cex :
    (Reply (registry fx0) unknownThenText conv1).out = Except.ok (str "done")
    ∧ (Reply (registry fx0) unknownThenText conv1).backendCalls = 2
    ∧ Msg.tool (str "Unknown tool: does_not_exist") (str "call_1")
        ∈ (Reply (registry fx0) unknownThenText conv1).msgs := by
  refine ⟨rfl, rfl, ?_⟩
  decide

/-- C1 amended: `Dispatch` converts an unknown capability name into the
tool-result message "Unknown tool: name" correlated to the request, and the
registry-based loop continues into the next backend call like any other
round; only the legacy inline orchestrator terminates at the first unknown
name with the "unknown tool call" error, issuing no further backend calls. -/
theorem unknown_capability_amended :
    (∀ (ts : List tools.Tool) (call : ToolCall),
      call.typ = str "function" →
      (∀ t ∈ ts, t.name ≠ call.funcName) →
      tools.Dispatch ts call = Msg.tool (str "Unknown tool: " ++ call.funcName) call.id)
    ∧ (∀ (ts : List tools.Tool) (backend : List Msg → Except GoStr ChatResponse)
        (fuel k : Nat) (msgs : List Msg) (resp : ChatResponse)
        (message : ChatMessage) (rest : List ChatMessage),
      backend msgs = Except.ok resp → resp.choices = message :: rest →
      message.toolCalls ≠ [] →
      replyLoop ts backend (fuel + 1) k msgs
        = replyLoop ts backend fuel (k + 1)
            (msgs ++ Msg.assistantParam message :: message.toolCalls.map (tools.Dispatch ts)))
    ∧ (∀ (fx : Effects) (backend : List Msg → Except GoStr ChatResponse)
        (fuel k : Nat) (msgs : List Msg) (resp : ChatResponse)
        (message : ChatMessage) (rest : List ChatMessage)
        (pre : List ToolCall) (bad : ToolCall) (post : List ToolCall),
      backend msgs = Except.ok resp → resp.choices = message :: rest →
      message.toolCalls = pre ++ bad :: post →
      (∀ c ∈ pre, (legacy.handleCall fx c).isSome) →
      bad.funcName ≠ str "get_weather" → bad.funcName ≠ str "get_today_date" →
      bad.funcName ≠ str "get_holidays" →
      (legacy.replyLoop fx backend (fuel + 1) k msgs).out
          = Except.error (str "unknown tool call: " ++ bad.funcName)
      ∧ (legacy.replyLoop fx backend (fuel + 1) k msgs).backendCalls = k + 1) := by
  refine ⟨?_, ?_, ?_⟩
  · intro ts call hty h
    rw [tools.Dispatch, if_pos hty]
    exact dispatchLookup_not_found ts call.funcName call.funcArgs call.id h
  · intro ts backend fuel k msgs resp message rest hb hc ht
    exact replyLoop_step ts backend fuel k msgs resp message rest hb hc ht
  · intro fx backend fuel k msgs resp message rest pre bad post hb hc hcalls hpre h1 h2 h3
    exact legacy_replyLoop_unknown fx backend fuel k msgs resp message rest pre bad post
      hb hc hcalls hpre (legacy_handleCall_none fx bad h1 h2 h3)

/-- Witness for the amended C1 at an unknown call against the real registry,
in both generations. -/
theorem unknown_capability_amended_witness :
    tools.Dispatch (registry fx0) unknownCall
        = Msg.tool (str "Unknown tool: " ++ unknownCall.funcName) unknownCall.id
    ∧ replyLoop (registry fx0) unknownThenText 1 0 (initMsgs conv1)
        = replyLoop (registry fx0) unknownThenText 0 1
            (initMsgs conv1 ++ Msg.assistantParam ⟨[], [unknownCall]⟩
              :: [unknownCall].map (tools.Dispatch (registry fx0)))
    ∧ (legacy.replyLoop fx0 unknownThenText 15 0 (initMsgs conv1)).out
          = Except.error (str "unknown tool call: " ++ unknownCall.funcName)
    ∧ (legacy.replyLoop fx0 unknownThenText 15 0 (initMsgs conv1)).backendCalls = 0 + 1 :=
  ⟨unknown_capability_amended.1 (registry fx0) unknownCall rfl (by decide),
   unknown_capability_amended.2.1 (registry fx0) unknownThenText 0 0 (initMsgs conv1)
     ⟨[⟨[], [unknownCall]⟩]⟩ ⟨[], [unknownCall]⟩ [] rfl rfl (by simp),
   (unknown_capability_amended.2.2 fx0 unknownThenText 14 0 (initMsgs conv1)
     ⟨[⟨[], [unknownCall]⟩]⟩ ⟨[], [unknownCall]⟩ [] [] unknownCall [] rfl rfl rfl
     (by simp) (by decide) (by decide) (by decide)).1,
   (unknown_capability_amended.2.2 fx0 unknownThenText 14 0 (initMsgs conv1)
     ⟨[⟨[], [unknownCall]⟩]⟩ ⟨[], [unknownCall]⟩ [] [] unknownCall [] rfl rfl rfl
     (by simp) (by decide) (by decide) (by decide)).2⟩

/-- C5: a failing registered capability never aborts the invocation — a
decode failure of the weather arguments surfaces as a "Tool failed: invalid
weather parameters" tool-result message through the real registry; any
execution failure of a matched tool becomes a "Tool failed" message; every
dispatch outcome is a tool-result message correlated to its request (never a
hard error); the round-trip continues with the next requested invocation; and
the legacy inline loop likewise folds a weather decode failure into a
tool-result message and moves on. -/
theorem capability_failure_isolated :
    (∀ (fx : Effects) (call : ToolCall) (e : GoStr),
      call.typ = str "function" → call.funcName = str "get_weather" →
      fx.decodeWeather call.funcArgs = Except.error e →
      tools.Dispatch (registry fx) call
        = Msg.tool (str "Tool failed: " ++ (str "invalid weather parameters: " ++ e)) call.id)
    ∧ (∀ (t : tools.Tool) (rest : List tools.Tool) (args id e : GoStr),
      t.handle args = Except.error e →
      tools.dispatchLookup (t :: rest) t.name args id
        = Msg.tool (str "Tool failed: " ++ e) id)
    ∧ (∀ (ts : List tools.Tool) (call : ToolCall),
      ∃ content, tools.Dispatch ts call = Msg.tool content call.id)
    ∧ (∀ (ts : List tools.Tool) (call : ToolCall) (calls : List ToolCall) (msgs : List Msg),
      dispatchAll ts (call :: calls) msgs
        = dispatchAll ts calls (msgs ++ [tools.Dispatch ts call]))
    ∧ (∀ (fx : Effects) (call : ToolCall) (e : GoStr) (rest : List ToolCall) (msgs : List Msg),
      call.funcName = str "get_weather" →
      fx.decodeWeather call.funcArgs = Except.error e →
      legacy.processCalls fx (call :: rest) msgs
        = legacy.processCalls fx rest
            (msgs ++ [Msg.tool (str "failed to parse weather request: " ++ e) call.id])) := by
  refine ⟨?_, ?_, ?_, ?_, ?_⟩
  · intro fx call e hty hname hdec
    have hw : tools.weatherHandle fx call.funcArgs
        = Except.error (str "invalid weather parameters: " ++ e) := by
      rw [tools.weatherHandle, hdec]
    have hw2 : (tools.Tool.mk (str "get_weather") (tools.weatherHandle fx)).handle call.funcArgs
        = Except.error (str "invalid weather parameters: " ++ e) := hw
    rw [tools.Dispatch, if_pos hty, registry, tools.dispatchLookup, if_pos hname.symm, hw2]
  · intro t rest args id e hh
    rw [tools.dispatchLookup, if_pos rfl, hh]
  · intro ts call
    exact Dispatch_isTool ts call
  · intro ts call calls msgs
    rfl
  · intro fx call e rest msgs hname hdec
    exact legacy_processCalls_cons fx call _ rest msgs
      (legacy_handleCall_weather_decode fx call e hname hdec)

/-- Witness for C5 at a weather call with undecodable arguments. -/
theorem capability_failure_isolated_witness :
    tools.Dispatch (registry fx0) badWeatherCall
        = Msg.tool (str "Tool failed: "
            ++ (str "invalid weather parameters: " ++ str "unexpected end of JSON input"))
          badWeatherCall.id
    ∧ tools.dispatchLookup [tools.Tool.mk (str "get_weather") (tools.weatherHandle fx0)]
          (str "get_weather") (str "not json") (str "call_3")
        = Msg.tool (str "Tool failed: "
            ++ (str "invalid weather parameters: " ++ str "unexpected end of JSON input"))
          (str "call_3")
    ∧ (∃ content, tools.Dispatch (registry fx0) badWeatherCall
        = Msg.tool content badWeatherCall.id)
    ∧ dispatchAll (registry fx0) [badWeatherCall, dateCall] (initMsgs conv1)
        = dispatchAll (registry fx0) [dateCall]
            (initMsgs conv1 ++ [tools.Dispatch (registry fx0) badWeatherCall])
    ∧ legacy.processCalls fx0 [badWeatherCall, dateCall] (initMsgs conv1)
        = legacy.processCalls fx0 [dateCall]
            (initMsgs conv1 ++ [Msg.tool (str "failed to parse weather request: "
                ++ str "unexpected end of JSON input") badWeatherCall.id]) :=
  ⟨capability_failure_isolated.1 fx0 badWeatherCall (str "unexpected end of JSON input")
     rfl rfl rfl,
   capability_failure_isolated.2.1 ⟨str "get_weather", tools.weatherHandle fx0⟩ []
     (str "not json") (str "call_3") (str "invalid weather parameters: "
        ++ str "unexpected end of JSON input") rfl,
   capability_failure_isolated.2.2.1 (registry fx0) badWeatherCall,
   capability_failure_isolated.2.2.2.1 (registry fx0) badWeatherCall [dateCall] (initMsgs conv1),
   capability_failure_isolated.2.2.2.2 fx0 badWeatherCall
     (str "unexpected end of JSON input") [dateCall] (initMsgs conv1) rfl rfl⟩

/-- C2 counterexample: a raw title of 81 code points whose 80th is a space is
trimmed (no surrounding cutset), then hard-truncated to 80 — leaving a
trailing space, so a successful title can end in whitespace. -/
theorem title_trailing_space_cex :
    (Title conv1 (Except.ok ⟨[⟨List.replicate 79 97 ++ [32, 98], []⟩]⟩)).1
        = Except.ok (List.replicate 79 97 ++ [32])
    ∧ (List.replicate 79 97 ++ [32]).getLast? = some 32
    ∧ (32 : Nat) ∈ titleCutset ∧ isGoSpace 32 = true := by
  refine ⟨rfl, ?_, by decide, rfl⟩
  decide

/-- C2 amended: every successful title of a nonempty conversation is at most
80 code points, contains no newline, and never starts with a whitespace,
quote or dash code point; when it is shorter than 80 (no truncation
happened), it also never ends with one — but hard truncation to exactly 80
can leave a trailing whitespace/quote/dash. -/
theorem title_shape_amended (conv : Conversation)
    (backend : Except GoStr ChatResponse) (t : GoStr)
    (hne : conv.messages ≠ []) (hok : (Title conv backend).1 = Except.ok t) :
    t.length ≤ 80
    ∧ 10 ∉ t
    ∧ (∀ x ∈ t.head?, x ∉ titleCutset)
    ∧ (t.length < 80 → ∀ x ∈ t.getLast?, x ∉ titleCutset) := by
  have hlen : ¬ conv.messages.length = 0 :=
    fun h0 => hne (List.length_eq_zero.mp h0)
  rw [Title.eq_def, if_neg hlen] at hok
  cases backend with
  | error e => simp at hok
  | ok resp =>
    cases hc : resp.choices with
    | nil =>
      simp only [hc] at hok
      simp at hok
    | cons m rest =>
      simp only [hc] at hok
      by_cases hb : isBlank m.content = true
      · rw [if_pos hb] at hok
        simp at hok
      · rw [if_neg hb] at hok
        simp only [Except.ok.injEq] at hok
        rw [← hok]
        exact processTitle_props m.content

/-- Witness for the amended C2 at a concrete model response. -/
theorem title_shape_amended_witness :
    (str "Weather in Barcelona").length ≤ 80
    ∧ 10 ∉ str "Weather in Barcelona"
    ∧ (∀ x ∈ (str "Weather in Barcelona").head?, x ∉ titleCutset)
    ∧ ((str "Weather in Barcelona").length < 80 →
        ∀ x ∈ (str "Weather in Barcelona").getLast?, x ∉ titleCutset) :=
  title_shape_amended conv1
    (Except.ok ⟨[⟨str "Weather in Barcelona", []⟩]⟩)
    (str "Weather in Barcelona") (by decide) rfl
